import Mathlib

/-!
Shallow embedding of the voice turn-taking state machine of
src/static/app.js (MedBridge patient pre-check / booking frontend).

The JavaScript is single-threaded and callback-driven.  Each loop
(check-in, booking) is modelled as a record of its script variables
(checkinState / bookingState fields, the checkinRec / checkinUtterance /
bookingRec / bookingUtterance handles) together with the DOM bits the
code writes (input value, indicator, status line, CSS classes, chat
bubbles, alerts).  Asynchronous effects are made explicit:

* setTimeout(startCheckinListening, 400) and
  setTimeout(sendCheckinMessage(t), 300) become entries appended to
  pendingListen / pendingSubmit (delay in milliseconds, kept verbatim);
* engine callbacks (utterance onstart/onend/onerror, recognition
  onstart/onresult/onend/onerror) are separate step functions, applied
  as events of a trace;
* a fetch is modelled by passing its outcome to the sending function;
* the browser capability checks (speechSynthesis in window,
  window.SpeechRecognition) are the fields synthSupported /
  recSupported;
* a recognizer stop() call that may itself throw is modelled by an
  explicit engineThrows oracle flowing into an Except computation whose
  error is swallowed, exactly like the try/catch in the source.

Claim-irrelevant DOM-only detail (utterance rate/pitch/voice selection,
auto-resize of the textarea, the booking slot card rendering, button
disable/enable pairs that are restored before the function returns) is
not modelled; everything the frozen claims mention is.
-/

namespace MedBridge

/-- Argument of setCheckinVoiceIndicator: idle hides the indicator,
speaking / listening show it with the matching text. -/
inductive Indicator
  | idle
  | speaking
  | listening
deriving DecidableEq, Repr

/-- One entry of the SpeechRecognitionResultList slice scanned by the
onresult handlers: the segments at indices event.resultIndex .. end,
each with its isFinal flag and transcript text. -/
structure Seg where
  isFinal : Bool
  transcript : String
deriving DecidableEq, Repr

/-- One iteration of the onresult loop: append the segment's transcript
to the final accumulator when it is final, else to the interim one. -/
def scanStep (acc : String × String) (r : Seg) : String × String :=
  if r.isFinal then (acc.1 ++ r.transcript, acc.2) else (acc.1, acc.2 ++ r.transcript)

/-- The single pass of the onresult handlers over the scanned segments:
finalTranscript accumulates final segments, interim accumulates the
rest (both reset to the empty string at the start of the handler). -/
def scanResults (segs : List Seg) : String × String :=
  segs.foldl scanStep ("", "")

/-- Specification-side helper: the concatenation, in order, of exactly
the segments marked final. -/
def finalsConcat : List Seg → String
  | [] => ""
  | r :: rs => if r.isFinal then r.transcript ++ finalsConcat rs else finalsConcat rs

/-- Executable model of JavaScript String.prototype.trim(): strip
whitespace from both ends (structural recursion on the character list,
unlike the library trim, so concrete instances reduce in the kernel). -/
def jsTrim (s : String) : String :=
  String.mk (((s.data.dropWhile Char.isWhitespace).reverse.dropWhile Char.isWhitespace).reverse)

/-- The result of the recognizer's stop() call, which the source wraps in
try { rec.stop() } catch { /* ignore */ }. -/
def recEngineStop (engineThrows : Bool) : Except String Unit :=
  if engineThrows then Except.error "stop failed" else Except.ok ()

/-- Check-in loop state: the fields of checkinState, the module handles
checkinRec / checkinUtterance, the closure variable finalTranscript of
the active listening session, the DOM the code writes, the scheduled
timeouts, the log of Conversation-Service calls and the platform
capability flags. -/
structure CheckinState where
  sessionId : Option String
  langCode : String
  isAutoMode : Bool
  isSpeaking : Bool
  isListening : Bool
  recHandle : Bool
  utterance : Option String
  finalTranscript : String
  inputValue : String
  micRecording : Bool
  statusActive : Bool
  statusText : String
  indicator : Indicator
  bubbles : List (String × String)
  typing : Bool
  autoLabel : String
  alerts : List String
  pendingListen : List Nat
  pendingSubmit : List (Nat × String)
  serviceCalls : List String
  synthSupported : Bool
  recSupported : Bool
deriving DecidableEq, Repr

/-- setCheckinVoiceIndicator(state): idle adds the hidden class, the
other values show the indicator. -/
def setCheckinVoiceIndicator (i : Indicator) (s : CheckinState) : CheckinState :=
  { s with indicator := i }

/-- stopCheckinSpeaking: speechSynthesis.cancel() (the engine drops this
loop's in-flight utterance), then isSpeaking := false and
checkinUtterance := null. -/
def stopCheckinSpeaking (s : CheckinState) : CheckinState :=
  { s with isSpeaking := false, utterance := none }

/-- stopCheckinVoice with the engine-stop oracle made explicit: clears
isListening, releases checkinRec through the try/catch, removes the
recording and active classes and hides the indicator.  The Except layer
records whether an exception escapes (it never does: the catch swallows
the engine throw). -/
def stopCheckinVoiceE (engineThrows : Bool) (s : CheckinState) : Except String CheckinState :=
  let s1 := { s with isListening := false }
  let s2 :=
    if s1.recHandle then
      match recEngineStop engineThrows with
      | Except.ok _ => { s1 with recHandle := false }
      | Except.error _ => { s1 with recHandle := false }
    else s1
  Except.ok (setCheckinVoiceIndicator Indicator.idle
    { s2 with micRecording := false, statusActive := false })

/-- stopCheckinVoice as called by the rest of the script (engine stop
succeeding; the error arm is dead code since stopCheckinVoiceE always
returns ok). -/
def stopCheckinVoice (s : CheckinState) : CheckinState :=
  match stopCheckinVoiceE false s with
  | Except.ok s1 => s1
  | Except.error _ => s

/-- checkinSpeakThenListen(text): bail out silently when speechSynthesis
is missing; otherwise stop speaking, stop listening, show the speaking
indicator, install the new utterance and set isSpeaking.  The engine
events of the utterance arrive later as checkinUttOnEnd /
checkinUttOnError. -/
def checkinSpeakThenListen (text : String) (s : CheckinState) : CheckinState :=
  if ¬ s.synthSupported then s
  else
    let s1 := stopCheckinVoice (stopCheckinSpeaking s)
    let s2 := setCheckinVoiceIndicator Indicator.speaking s1
    { s2 with utterance := some text, isSpeaking := true }

/-- utterance.onend of the check-in loop: clear the speaking flags, hide
the indicator, and when AutoMode is on schedule
setTimeout(startCheckinListening, 400). -/
def checkinUttOnEnd (s : CheckinState) : CheckinState :=
  let s1 := { s with isSpeaking := false, utterance := none }
  if s1.isAutoMode then
    let s2 := setCheckinVoiceIndicator Indicator.idle s1
    { s2 with pendingListen := s2.pendingListen ++ [400] }
  else
    setCheckinVoiceIndicator Indicator.idle s1

/-- utterance.onerror of the check-in loop (also fired when the shared
engine cancels the utterance). -/
def checkinUttOnError (s : CheckinState) : CheckinState :=
  setCheckinVoiceIndicator Indicator.idle { s with isSpeaking := false, utterance := none }

/-- startCheckinListening: no-op when SpeechRecognition is missing or a
session is already flagged; otherwise stopCheckinVoice, create and
start a recognizer, set the listening flags and classes and reset the
session's finalTranscript closure variable. -/
def startCheckinListening (s : CheckinState) : CheckinState :=
  if ¬ s.recSupported ∨ s.isListening then s
  else
    let s1 := stopCheckinVoice s
    let s2 := { s1 with isListening := true, recHandle := true }
    let s3 := setCheckinVoiceIndicator Indicator.listening s2
    { s3 with micRecording := true, statusActive := true, finalTranscript := "" }

/-- rec.onresult of the check-in loop: rebuild finalTranscript and the
interim text from the scanned segments, mirror both into the input
field and update the status line. -/
def checkinRecOnResult (segs : List Seg) (s : CheckinState) : CheckinState :=
  let p := scanResults segs
  { s with
    finalTranscript := p.1
    inputValue := p.1 ++ p.2
    statusText := if p.2 ≠ "" then "Hearing you…" else "Listening…" }

/-- rec.onend of the check-in loop: clear the listening flags, classes
and indicator; when the trimmed buffer is non-empty and AutoMode is on,
schedule setTimeout(sendCheckinMessage(buffer.trim()), 300). -/
def checkinRecOnEnd (s : CheckinState) : CheckinState :=
  let s1 := setCheckinVoiceIndicator Indicator.idle
    { s with isListening := false, recHandle := false, micRecording := false, statusActive := false }
  if jsTrim s.finalTranscript ≠ "" ∧ s.isAutoMode = true then
    { s1 with pendingSubmit := s1.pendingSubmit ++ [(300, jsTrim s.finalTranscript)] }
  else s1

/-- rec.onerror of the check-in loop: alert about the microphone when
permission was denied, then clear the listening flags, classes and
indicator. -/
def checkinRecOnError (err : String) (s : CheckinState) : CheckinState :=
  let s1 :=
    if err = "not-allowed" then
      { s with alerts := s.alerts ++
          ["Microphone access was denied. Please allow microphone access to use voice input."] }
    else s
  setCheckinVoiceIndicator Indicator.idle
    { s1 with isListening := false, recHandle := false, micRecording := false, statusActive := false }

/-- toggleCheckinVoice (mic tap): stop when listening, else stop any
speaking and start listening. -/
def toggleCheckinVoice (s : CheckinState) : CheckinState :=
  if s.isListening then stopCheckinVoice s
  else startCheckinListening (stopCheckinSpeaking s)

/-- updateAutoModeUI: refresh the toggle label from isAutoMode. -/
def updateAutoModeUI (s : CheckinState) : CheckinState :=
  { s with autoLabel := if s.isAutoMode then "Auto On" else "Auto Off" }

/-- toggleAutoMode (check-in): flip the flag; when it is now off, stop
both the speaking and the listening job; refresh the label. -/
def toggleAutoMode (s : CheckinState) : CheckinState :=
  let s1 := { s with isAutoMode := !s.isAutoMode }
  let s2 := if !s1.isAutoMode then stopCheckinVoice (stopCheckinSpeaking s1) else s1
  updateAutoModeUI s2

/-- Outcome of the fetch inside sendCheckinMessage: the parsed reply
text, or a transport failure caught by the catch block. -/
inductive FetchOutcome
  | reply (text : String)
  | failure
deriving DecidableEq, Repr

/-- The apology bubble appended by the catch block of
sendCheckinMessage. -/
def checkinApology : String := "[Connection error — please try again.]"

/-- sendCheckinMessage(textOverride): trim the override or the input
field; bail out when empty or without a session id; otherwise clear the
input, append the user bubble, show typing and call the Conversation
Service once.  On reply: hide typing, append the assistant bubble and,
when AutoMode is on, hand the reply to checkinSpeakThenListen.  On
transport failure: hide typing and append exactly one apology bubble. -/
def sendCheckinMessage (textOverride : Option String) (outcome : FetchOutcome)
    (s : CheckinState) : CheckinState :=
  let text := jsTrim (match textOverride with | some t => t | none => s.inputValue)
  if text = "" ∨ s.sessionId = none then s
  else
    let s1 := { s with
      inputValue := ""
      bubbles := s.bubbles ++ [("user", text)]
      typing := true
      serviceCalls := s.serviceCalls ++ [text] }
    match outcome with
    | FetchOutcome.reply reply =>
        let s2 := { s1 with typing := false, bubbles := s1.bubbles ++ [("assistant", reply)] }
        if s2.isAutoMode then checkinSpeakThenListen reply s2 else s2
    | FetchOutcome.failure =>
        { s1 with typing := false, bubbles := s1.bubbles ++ [("assistant", checkinApology)] }

/-- One pending setTimeout(startCheckinListening, 400) fires.  Timers
are never cleared by the source, so stale ones may still fire. -/
def checkinListenTimerFire (s : CheckinState) : CheckinState :=
  match s.pendingListen with
  | [] => s
  | _ :: rest => startCheckinListening { s with pendingListen := rest }

/-- Initial check-in state (checkinState literal of the source plus
empty DOM), for the given platform capabilities. -/
def checkinInit (synthSupported recSupported : Bool) : CheckinState :=
  { sessionId := none
    langCode := "en"
    isAutoMode := true
    isSpeaking := false
    isListening := false
    recHandle := false
    utterance := none
    finalTranscript := ""
    inputValue := ""
    micRecording := false
    statusActive := false
    statusText := ""
    indicator := Indicator.idle
    bubbles := []
    typing := false
    autoLabel := "Auto On"
    alerts := []
    pendingListen := []
    pendingSubmit := []
    serviceCalls := []
    synthSupported := synthSupported
    recSupported := recSupported }

/-- Booking loop state: the fields of bookingState, the module handles
bookingRec / bookingUtterance, the session closure variable
finalTranscript, the DOM the code writes (indicator with its hidden
class and text, status line, mic button class, input field, bubbles,
auto-mode label, alerts), the scheduled timeouts, the service-call log
and the platform capability flags.  Unlike the check-in loop, the
booking flags isSpeaking / isListening are set by the engine onstart
events, and neither bookingUtterance nor (in onend) bookingRec is
nulled by the handlers. -/
structure BookingState where
  bookingSessionId : Option String
  langCode : String
  isAutoMode : Bool
  isSpeaking : Bool
  isListening : Bool
  recHandle : Bool
  utterance : Option String
  finalTranscript : String
  inputValue : String
  indicatorHidden : Bool
  indicatorText : String
  statusText : String
  micActive : Bool
  autoLabel : String
  bubbles : List (String × String)
  alerts : List String
  pendingListen : List Nat
  pendingSubmit : List (Nat × String)
  serviceCalls : List String
  synthSupported : Bool
  recSupported : Bool
deriving DecidableEq, Repr

/-- stopBookingSpeaking: speechSynthesis.cancel(), isSpeaking := false,
hide the indicator.  bookingUtterance is not nulled by the source. -/
def stopBookingSpeaking (s : BookingState) : BookingState :=
  { s with isSpeaking := false, indicatorHidden := true }

/-- stopBookingVoice with the engine-stop oracle: release bookingRec
through the try/catch, clear isListening, hide the indicator, remove
the mic active class.  The Except layer shows no exception escapes. -/
def stopBookingVoiceE (engineThrows : Bool) (s : BookingState) : Except String BookingState :=
  let s1 :=
    if s.recHandle then
      match recEngineStop engineThrows with
      | Except.ok _ => { s with recHandle := false }
      | Except.error _ => { s with recHandle := false }
    else s
  Except.ok { s1 with isListening := false, indicatorHidden := true, micActive := false }

/-- stopBookingVoice as called by the rest of the script. -/
def stopBookingVoice (s : BookingState) : BookingState :=
  match stopBookingVoiceE false s with
  | Except.ok s1 => s1
  | Except.error _ => s

/-- bookingSpeakThenListen(text): stopBookingSpeaking first; without
speechSynthesis set the status to Ready and, when AutoMode is on,
schedule setTimeout(startBookingListening, 400) anyway; otherwise
install the new utterance (speech starts with the onstart event). -/
def bookingSpeakThenListen (text : String) (s : BookingState) : BookingState :=
  let s1 := stopBookingSpeaking s
  if ¬ s1.synthSupported then
    let s2 := { s1 with statusText := "Ready" }
    if s2.isAutoMode then { s2 with pendingListen := s2.pendingListen ++ [400] } else s2
  else
    { s1 with utterance := some text }

/-- bookingUtterance.onstart: set isSpeaking, show the indicator with
its speaking text, set the status line. -/
def bookingUttOnStart (s : BookingState) : BookingState :=
  { s with
    isSpeaking := true
    indicatorHidden := false
    indicatorText := "Aria is speaking…"
    statusText := "Speaking…" }

/-- bookingUtterance.onend: clear isSpeaking, hide the indicator and,
when AutoMode is on, schedule setTimeout(startBookingListening, 400). -/
def bookingUttOnEnd (s : BookingState) : BookingState :=
  let s1 := { s with isSpeaking := false, indicatorHidden := true }
  if s1.isAutoMode then { s1 with pendingListen := s1.pendingListen ++ [400] } else s1

/-- bookingUtterance.onerror (also fired when the shared engine cancels
the utterance): clear isSpeaking and hide the indicator. -/
def bookingUttOnError (s : BookingState) : BookingState :=
  { s with isSpeaking := false, indicatorHidden := true }

/-- startBookingListening: without SpeechRecognition report the
unsupported condition in the status line and return; no-op when
already listening; otherwise stopBookingVoice, create the recognizer
and reset the session's finalTranscript closure variable (the
listening flags are set by the onstart event). -/
def startBookingListening (s : BookingState) : BookingState :=
  if ¬ s.recSupported then { s with statusText := "Voice not supported in this browser." }
  else if s.isListening then s
  else
    let s1 := stopBookingVoice s
    { s1 with recHandle := true, finalTranscript := "" }

/-- bookingRec.onstart: set isListening, show the indicator with the
listening text, set the status line, add the mic active class. -/
def bookingRecOnStart (s : BookingState) : BookingState :=
  { s with
    isListening := true
    indicatorHidden := false
    indicatorText := "Listening…"
    statusText := "Listening…"
    micActive := true }

/-- bookingRec.onresult: rebuild finalTranscript and the interim text
from the scanned segments; the input field shows the final text when
non-empty, else the interim text. -/
def bookingRecOnResult (segs : List Seg) (s : BookingState) : BookingState :=
  let p := scanResults segs
  { s with
    finalTranscript := p.1
    inputValue := if p.1 ≠ "" then p.1 else p.2 }

/-- bookingRec.onend: clear isListening, hide the indicator, status
Ready, remove the mic class; when AutoMode is on and the trimmed buffer
is non-empty, schedule setTimeout(sendBookingMessage(buffer.trim()), 300). -/
def bookingRecOnEnd (s : BookingState) : BookingState :=
  let s1 := { s with
    isListening := false, indicatorHidden := true, statusText := "Ready", micActive := false }
  if s1.isAutoMode = true ∧ jsTrim s.finalTranscript ≠ "" then
    { s1 with pendingSubmit := s1.pendingSubmit ++ [(300, jsTrim s.finalTranscript)] }
  else s1

/-- bookingRec.onerror: clear isListening, hide the indicator, remove
the mic class; alert when permission was denied. -/
def bookingRecOnError (err : String) (s : BookingState) : BookingState :=
  let s1 := { s with isListening := false, indicatorHidden := true, micActive := false }
  if err = "not-allowed" then
    { s1 with alerts := s1.alerts ++
        ["Microphone access denied. Please allow microphone access."] }
  else s1

/-- toggleBookingVoice (mic tap): stop when listening, else start. -/
def toggleBookingVoice (s : BookingState) : BookingState :=
  if s.isListening then stopBookingVoice s else startBookingListening s

/-- toggleBookingAutoMode: flip the flag and refresh the label; nothing
else is touched. -/
def toggleBookingAutoMode (s : BookingState) : BookingState :=
  let s1 := { s with isAutoMode := !s.isAutoMode }
  { s1 with autoLabel := if s1.isAutoMode then "Auto On" else "Auto Off" }

/-- The parsed JSON of a successful booking message round trip (the
fields the voice code reads). -/
structure BookingReply where
  responseText : String
  state : String
  bookingRef : String
  slotDate : String
  slotTime : String
deriving DecidableEq, Repr

/-- Outcome of the fetch inside sendBookingMessage. -/
inductive BookingOutcome
  | ok (r : BookingReply)
  | failure
deriving DecidableEq, Repr

/-- The apology bubble appended by the catch block of
sendBookingMessage. -/
def bookingApology : String := "[Error communicating with server. Please try again.]"

/-- showBookingConfirmed: stop both drivers, render the confirmation
details, then speak the confirmation message. -/
def showBookingConfirmed (r : BookingReply) (s : BookingState) : BookingState :=
  let s1 := stopBookingVoice (stopBookingSpeaking s)
  let msg := "Your appointment has been confirmed. Your booking reference is " ++ r.bookingRef ++
    ". See you at " ++ r.slotTime ++ " on " ++ r.slotDate ++ "."
  bookingSpeakThenListen msg s1

/-- sendBookingMessage(overrideText): trim the override or the input
field; bail out when empty or without a session id; otherwise clear the
input, stopBookingVoice, append the user bubble, status Processing and
call the service once.  On reply: append the assistant bubble, then
confirmed → showBookingConfirmed, cancelled → extra bubble and stop,
else speak the reply.  On transport failure: exactly one apology
bubble. -/
def sendBookingMessage (overrideText : Option String) (outcome : BookingOutcome)
    (s : BookingState) : BookingState :=
  let text := jsTrim (match overrideText with | some t => t | none => s.inputValue)
  if text = "" ∨ s.bookingSessionId = none then s
  else
    let s1 := stopBookingVoice { s with inputValue := "" }
    let s2 := { s1 with
      bubbles := s1.bubbles ++ [("user", text)]
      statusText := "Processing…"
      serviceCalls := s1.serviceCalls ++ [text] }
    match outcome with
    | BookingOutcome.ok r =>
        let s3 := { s2 with bubbles := s2.bubbles ++ [("assistant", r.responseText)] }
        if r.state = "confirmed" then showBookingConfirmed r s3
        else if r.state = "cancelled" then
          { s3 with bubbles := s3.bubbles ++
              [("assistant", "Your booking has been cancelled. Feel free to start a new one.")] }
        else bookingSpeakThenListen r.responseText s3
    | BookingOutcome.failure =>
        { s2 with bubbles := s2.bubbles ++ [("assistant", bookingApology)] }

/-- cancelBookingSession (user clicks the cancel button): fire the
cancel request, append the cancellation bubble and speak the
cancellation message.  Note it does not stop an active listening
session first. -/
def cancelBookingSession (s : BookingState) : BookingState :=
  if s.bookingSessionId = none then s
  else
    let s1 := { s with bubbles := s.bubbles ++
      [("assistant", "Booking cancelled. Let me know if you\x27d like to try again.")] }
    bookingSpeakThenListen
      "Booking cancelled. Let me know if you\x27d like to try again with different preferences." s1

/-- One pending setTimeout(startBookingListening, 400) fires. -/
def bookingListenTimerFire (s : BookingState) : BookingState :=
  match s.pendingListen with
  | [] => s
  | _ :: rest => startBookingListening { s with pendingListen := rest }

/-- Initial booking state (bookingState literal of the source plus
empty DOM), for the given platform capabilities. -/
def bookingInit (synthSupported recSupported : Bool) : BookingState :=
  { bookingSessionId := none
    langCode := "en"
    isAutoMode := true
    isSpeaking := false
    isListening := false
    recHandle := false
    utterance := none
    finalTranscript := ""
    inputValue := ""
    indicatorHidden := true
    indicatorText := ""
    statusText := ""
    micActive := false
    autoLabel := "Auto On"
    bubbles := []
    alerts := []
    pendingListen := []
    pendingSubmit := []
    serviceCalls := []
    synthSupported := synthSupported
    recSupported := recSupported }

/-- Which loop owns an utterance handed to the process-wide
speechSynthesis engine. -/
inductive Owner
  | checkin
  | booking
deriving DecidableEq, Repr

/-- The whole page: both loop states plus the shared speechSynthesis
channel.  synthCur is the owner of the utterance currently held by the
engine (browser speech synthesis is one process-wide channel; both
loops call speechSynthesis.speak / speechSynthesis.cancel on it).
Recognition engines are per-loop objects (each loop constructs its own
SpeechRecognition), so they stay inside the loop states. -/
structure App where
  ck : CheckinState
  bk : BookingState
  synthCur : Option Owner
deriving DecidableEq, Repr

/-- speechSynthesis.cancel(): drop the utterance currently held by the
engine, whichever loop owns it; the cancelled utterance fires its error
event, running that loop's onerror handler. -/
def synthCancel (g : App) : App :=
  match g.synthCur with
  | none => g
  | some Owner.checkin => { g with synthCur := none, ck := checkinUttOnError g.ck }
  | some Owner.booking => { g with synthCur := none, bk := bookingUttOnError g.bk }

/-- stopCheckinSpeaking on the whole page: the cancel goes to the
shared engine, then the check-in flags are cleared. -/
def stopCheckinSpeakingG (g : App) : App :=
  let g1 := if g.ck.synthSupported then synthCancel g else g
  { g1 with ck := { g1.ck with isSpeaking := false, utterance := none } }

/-- stopCheckinVoice on the whole page: recognition is loop-local. -/
def stopCheckinVoiceG (g : App) : App :=
  { g with ck := stopCheckinVoice g.ck }

/-- toggleAutoMode on the whole page: flip the check-in flag; when it
is now off, stop the check-in speaking (through the shared engine) and
the check-in listening; refresh the label. -/
def toggleAutoModeG (g : App) : App :=
  let g1 := { g with ck := { g.ck with isAutoMode := !g.ck.isAutoMode } }
  let g2 := if !g1.ck.isAutoMode then stopCheckinVoiceG (stopCheckinSpeakingG g1) else g1
  { g2 with ck := updateAutoModeUI g2.ck }

/-- checkinSpeakThenListen on the whole page: the two stops (the speak
one through the shared engine), then the new utterance is handed to the
engine with the check-in loop as owner. -/
def checkinSpeakThenListenG (text : String) (g : App) : App :=
  if ¬ g.ck.synthSupported then g
  else
    let g1 := stopCheckinVoiceG (stopCheckinSpeakingG g)
    let ck2 := setCheckinVoiceIndicator Indicator.speaking g1.ck
    { g1 with
      ck := { ck2 with utterance := some text, isSpeaking := true }
      synthCur := some Owner.checkin }

/-- stopBookingSpeaking on the whole page: the cancel goes to the
shared engine, then the booking flags are cleared. -/
def stopBookingSpeakingG (g : App) : App :=
  let g1 := if g.bk.synthSupported then synthCancel g else g
  { g1 with bk := { g1.bk with isSpeaking := false, indicatorHidden := true } }

/-- stopBookingVoice on the whole page: recognition is loop-local. -/
def stopBookingVoiceG (g : App) : App :=
  { g with bk := stopBookingVoice g.bk }

/-- toggleBookingAutoMode on the whole page: it only flips the booking
flag and label. -/
def toggleBookingAutoModeG (g : App) : App :=
  { g with bk := toggleBookingAutoMode g.bk }

/-- bookingSpeakThenListen on the whole page: stopBookingSpeaking goes
through the shared engine; when synthesis exists the new utterance is
handed to the engine with the booking loop as owner. -/
def bookingSpeakThenListenG (text : String) (g : App) : App :=
  let g1 := stopBookingSpeakingG g
  if ¬ g1.bk.synthSupported then
    let b := { g1.bk with statusText := "Ready" }
    { g1 with bk := if b.isAutoMode then { b with pendingListen := b.pendingListen ++ [400] } else b }
  else
    { g1 with bk := { g1.bk with utterance := some text }, synthCur := some Owner.booking }

/-- The booking utterance starts on the shared engine. -/
def bookingUttOnStartG (g : App) : App :=
  { g with bk := bookingUttOnStart g.bk }

/-- Initial page state. -/
def appInit (synthSupported recSupported : Bool) : App :=
  { ck := checkinInit synthSupported recSupported
    bk := bookingInit synthSupported recSupported
    synthCur := none }

/-- The check-in speech-input driver is idle: no listening session, no
recognizer handle, no recording or active class, indicator hidden. -/
def CheckinVoiceIdle (s : CheckinState) : Prop :=
  s.isListening = false ∧ s.recHandle = false ∧ s.micRecording = false ∧
  s.statusActive = false ∧ s.indicator = Indicator.idle

/-- The check-in speech-output driver is idle: not speaking and no
utterance handle. -/
def CheckinSpeakIdle (s : CheckinState) : Prop :=
  s.isSpeaking = false ∧ s.utterance = none

/-- The booking speech-input driver is idle. -/
def BookingVoiceIdle (s : BookingState) : Prop :=
  s.isListening = false ∧ s.recHandle = false ∧ s.micActive = false ∧
  s.indicatorHidden = true

/-- The booking speech-output driver is idle. -/
def BookingSpeakIdle (s : BookingState) : Prop :=
  s.isSpeaking = false ∧ s.indicatorHidden = true

/-- A whole check-in listening session: the session starts, then the
engine delivers a sequence of result events (each the scanned segment
slice of one onresult call). -/
def checkinSession (events : List (List Seg)) (s : CheckinState) : CheckinState :=
  events.foldl (fun st e => checkinRecOnResult e st) (startCheckinListening s)

/-- A whole booking listening session: the session starts, the
recognizer fires onstart, then the result events arrive. -/
def bookingSession (events : List (List Seg)) (s : BookingState) : BookingState :=
  events.foldl (fun st e => bookingRecOnResult e st) (bookingRecOnStart (startBookingListening s))

/-- Concrete booking state with a live session id (after a successful
setup round trip) on a platform with both engines. -/
def bookingLive : BookingState :=
  { bookingInit true true with bookingSessionId := some "b1" }

/-- Concrete check-in state with a live session id on a platform with
both engines. -/
def checkinLive : CheckinState :=
  { checkinInit true true with sessionId := some "s1" }

/-- Claim C1 trace: the user taps the booking mic while idle (listening
starts, recognizer fires onstart), then clicks the cancel-booking
button (which speaks the cancellation message without stopping the
recognizer), and the cancellation utterance starts. -/
def c1Trace : BookingState :=
  bookingUttOnStart (cancelBookingSession (bookingRecOnStart (toggleBookingVoice bookingLive)))

/-- Claim C2 trace: the user taps the check-in mic while idle, so a
listening job is in flight. -/
def c2Trace : CheckinState := toggleCheckinVoice checkinLive

/-- Claim C3 trace: the booking loop speaks its welcome message on the
shared synthesis channel and the utterance has started; the check-in
loop is untouched with AutoMode on. -/
def c3Trace : App :=
  bookingUttOnStartG (bookingSpeakThenListenG "Welcome" { appInit true true with bk := bookingLive })

/-- Claim C7 trace: a check-in listening session in which the engine
finalizes a first segment, then delivers a second result event whose
resultIndex skips past it with a second final segment. -/
def c7Trace : CheckinState :=
  checkinSession [[⟨true, "hello "⟩], [⟨true, "world"⟩]] checkinLive

/-- All segments the engine marked final across the Claim C7 session,
in arrival order. -/
def c7AllSegs : List Seg := [⟨true, "hello "⟩, ⟨true, "world"⟩]

/-- Claim C8 state: a live check-in session on a platform where neither
speech synthesis nor recognition exists. -/
def c8NoEngine : CheckinState := { checkinInit false false with sessionId := some "s1" }

/-- Claim C8 state: a live booking session on a platform with speech
recognition but no speech synthesis. -/
def c8BookingNoSynth : BookingState :=
  { bookingInit false true with bookingSessionId := some "b1" }

/-- Claim C1 (counterexample): there is a sequence of booking-loop
events after which isSpeaking and isListening are simultaneously true,
because cancelBookingSession starts speech output via
bookingSpeakThenListen, which cancels only a prior utterance and not
the active recognition session. -/
theorem c1_mutex_counterexample :
    c1Trace.isSpeaking = true ∧ c1Trace.isListening = true := by
  decide

/-- Claim C1 (amended): checkinSpeakThenListen does cancel the other
job before speaking (with speech synthesis present it clears the
listening flag and releases the recognizer while setting the speaking
flag); but startCheckinListening and startBookingListening never touch
the speaking flag or the utterance handle, and bookingSpeakThenListen
never touches the listening flag or the recognizer handle, so those
three operations do not cancel the other job and mutual exclusion of
the two flags is not an invariant. -/
theorem c1_mutex_amended :
    (∀ (t : String) (s : CheckinState), s.synthSupported = true →
      (checkinSpeakThenListen t s).isListening = false ∧
      (checkinSpeakThenListen t s).recHandle = false ∧
      (checkinSpeakThenListen t s).isSpeaking = true) ∧
    (∀ s : CheckinState,
      (startCheckinListening s).isSpeaking = s.isSpeaking ∧
      (startCheckinListening s).utterance = s.utterance) ∧
    (∀ (t : String) (s : BookingState),
      (bookingSpeakThenListen t s).isListening = s.isListening ∧
      (bookingSpeakThenListen t s).recHandle = s.recHandle) ∧
    (∀ s : BookingState,
      (startBookingListening s).isSpeaking = s.isSpeaking) := by
  refine ⟨?_, ?_, ?_, ?_⟩
  · intro t s h
    by_cases hr : s.recHandle <;>
      simp [checkinSpeakThenListen, h, hr, stopCheckinSpeaking, stopCheckinVoice,
        stopCheckinVoiceE, recEngineStop, setCheckinVoiceIndicator]
  · intro s
    by_cases h : s.recSupported
    · by_cases hl : s.isListening
      · simp [startCheckinListening, h, hl]
      · by_cases hr : s.recHandle <;>
          simp [startCheckinListening, h, hl, hr, stopCheckinVoice, stopCheckinVoiceE,
            recEngineStop, setCheckinVoiceIndicator]
    · simp [startCheckinListening, h]
  · intro t s
    by_cases h : s.synthSupported
    · simp [bookingSpeakThenListen, h, stopBookingSpeaking]
    · by_cases ha : s.isAutoMode <;>
        simp [bookingSpeakThenListen, h, ha, stopBookingSpeaking]
  · intro s
    by_cases h : s.recSupported
    · by_cases hl : s.isListening
      · simp [startBookingListening, h, hl]
      · by_cases hr : s.recHandle <;>
          simp [startBookingListening, h, hl, hr, stopBookingVoice, stopBookingVoiceE,
            recEngineStop]
    · simp [startBookingListening, h]

/-- Claim C1 (witness): the amended cancellation facts evaluated at
concrete states. -/
theorem c1_mutex_amended_witness :
    (checkinLive.synthSupported = true ∧
      (checkinSpeakThenListen "hi" checkinLive).isListening = false) ∧
    (startBookingListening bookingLive).isSpeaking = bookingLive.isSpeaking := by
  exact ⟨⟨by decide, (c1_mutex_amended.1 "hi" checkinLive (by decide)).1⟩,
    c1_mutex_amended.2.2.2 bookingLive⟩

/-- Claim C2 (counterexample): toggling AutoMode off in the check-in
loop while a listening job is in flight interrupts it: the listening
flag is cleared and the recognizer handle is released by the toggle
itself. -/
theorem c2_toggle_counterexample :
    c2Trace.isAutoMode = true ∧ c2Trace.isListening = true ∧ c2Trace.recHandle = true ∧
    (toggleAutoMode c2Trace).isListening = false ∧
    (toggleAutoMode c2Trace).recHandle = false := by
  decide

/-- Claim C2 (amended): only the booking toggle behaves as claimed —
toggleBookingAutoMode flips the flag without touching any in-flight
job, and with the flag off the natural end of a job schedules no
automatic transition and no auto-submission while the transcript stays
in the input field; the check-in toggleAutoMode, by contrast, stops
both the speaking and the listening job immediately when switching
AutoMode off. -/
theorem c2_toggle_amended :
    (∀ s : BookingState,
      (toggleBookingAutoMode s).isSpeaking = s.isSpeaking ∧
      (toggleBookingAutoMode s).isListening = s.isListening ∧
      (toggleBookingAutoMode s).recHandle = s.recHandle ∧
      (toggleBookingAutoMode s).utterance = s.utterance ∧
      (toggleBookingAutoMode s).pendingListen = s.pendingListen ∧
      (toggleBookingAutoMode s).pendingSubmit = s.pendingSubmit ∧
      (toggleBookingAutoMode s).isAutoMode = !s.isAutoMode) ∧
    (∀ s : BookingState, s.isAutoMode = true →
      (bookingUttOnEnd (toggleBookingAutoMode s)).pendingListen = s.pendingListen ∧
      (bookingRecOnEnd (toggleBookingAutoMode s)).pendingSubmit = s.pendingSubmit ∧
      (bookingRecOnEnd (toggleBookingAutoMode s)).inputValue = s.inputValue) ∧
    (∀ s : CheckinState, s.isAutoMode = true →
      (toggleAutoMode s).isAutoMode = false ∧
      (toggleAutoMode s).isSpeaking = false ∧
      (toggleAutoMode s).isListening = false ∧
      (toggleAutoMode s).recHandle = false ∧
      (toggleAutoMode s).utterance = none) := by
  refine ⟨?_, ?_, ?_⟩
  · intro s
    simp [toggleBookingAutoMode]
  · intro s h
    simp [toggleBookingAutoMode, bookingUttOnEnd, bookingRecOnEnd, h]
  · intro s h
    by_cases hr : s.recHandle <;>
      simp [toggleAutoMode, h, hr, stopCheckinSpeaking, stopCheckinVoice, stopCheckinVoiceE,
        recEngineStop, setCheckinVoiceIndicator, updateAutoModeUI]

/-- Claim C2 (witness): the amended toggle facts evaluated at concrete
states. -/
theorem c2_toggle_amended_witness :
    (toggleBookingAutoMode bookingLive).isSpeaking = bookingLive.isSpeaking ∧
    (bookingUttOnEnd (toggleBookingAutoMode bookingLive)).pendingListen =
      bookingLive.pendingListen ∧
    (toggleAutoMode checkinLive).isAutoMode = false := by
  exact ⟨(c2_toggle_amended.1 bookingLive).1,
    (c2_toggle_amended.2.1 bookingLive (by decide)).1,
    (c2_toggle_amended.2.2 checkinLive (by decide)).1⟩

/-- Claim C3 (counterexample): toggling AutoMode off in the check-in
loop while the booking loop is speaking on the shared speechSynthesis
channel cancels the booking utterance, whose error handler clears the
booking isSpeaking flag — an observable change in the other loop. -/
theorem c3_isolation_counterexample :
    c3Trace.bk.isSpeaking = true ∧ (toggleAutoModeG c3Trace).bk.isSpeaking = false := by
  decide

/-- Claim C3 (amended): the two loops' script variables are disjoint —
a check-in AutoMode toggle never changes the booking loop's listening
flag, recognizer handle, AutoMode flag, input field, bubbles, pending
submissions or service calls, and if the shared synthesis channel is
not currently holding a booking utterance it changes nothing at all in
the booking loop; symmetrically the booking-side operations leave the
check-in state alone unless the channel holds a check-in utterance.
The one leak is the process-wide speechSynthesis channel: cancel from
one loop also kills the other loop's in-flight utterance. -/
theorem toggleAutoModeG_bk (g : App) :
    (toggleAutoModeG g).bk =
      if g.ck.isAutoMode = true ∧ g.ck.synthSupported = true then
        (match g.synthCur with
          | some Owner.booking => bookingUttOnError g.bk
          | _ => g.bk)
      else g.bk := by
  by_cases ha : g.ck.isAutoMode = true
  · by_cases hs : g.ck.synthSupported = true
    · rcases hc : g.synthCur with _ | o
      · simp [toggleAutoModeG, stopCheckinSpeakingG, stopCheckinVoiceG, synthCancel,
          updateAutoModeUI, ha, hs, hc]
      · cases o <;>
          simp [toggleAutoModeG, stopCheckinSpeakingG, stopCheckinVoiceG, synthCancel,
            updateAutoModeUI, checkinUttOnError, setCheckinVoiceIndicator, ha, hs, hc]
    · simp [toggleAutoModeG, stopCheckinSpeakingG, stopCheckinVoiceG, updateAutoModeUI,
        ha, hs]
  · simp [toggleAutoModeG, updateAutoModeUI, ha]

theorem stopBookingSpeakingG_ck (g : App) :
    (stopBookingSpeakingG g).ck =
      if g.bk.synthSupported = true then
        (match g.synthCur with
          | some Owner.checkin => checkinUttOnError g.ck
          | _ => g.ck)
      else g.ck := by
  by_cases hs : g.bk.synthSupported = true
  · rcases hc : g.synthCur with _ | o
    · simp [stopBookingSpeakingG, synthCancel, hs, hc]
    · cases o <;>
        simp [stopBookingSpeakingG, synthCancel, bookingUttOnError, hs, hc]
  · simp [stopBookingSpeakingG, hs]

theorem c3_isolation_amended :
    (∀ g : App,
      (toggleAutoModeG g).bk.isListening = g.bk.isListening ∧
      (toggleAutoModeG g).bk.recHandle = g.bk.recHandle ∧
      (toggleAutoModeG g).bk.isAutoMode = g.bk.isAutoMode ∧
      (toggleAutoModeG g).bk.inputValue = g.bk.inputValue ∧
      (toggleAutoModeG g).bk.bubbles = g.bk.bubbles ∧
      (toggleAutoModeG g).bk.pendingSubmit = g.bk.pendingSubmit ∧
      (toggleAutoModeG g).bk.serviceCalls = g.bk.serviceCalls) ∧
    (∀ g : App, g.synthCur ≠ some Owner.booking → (toggleAutoModeG g).bk = g.bk) ∧
    (∀ g : App, (toggleBookingAutoModeG g).ck = g.ck ∧ (stopBookingVoiceG g).ck = g.ck) ∧
    (∀ g : App, g.synthCur ≠ some Owner.checkin → (stopBookingSpeakingG g).ck = g.ck) := by
  refine ⟨?_, ?_, ?_, ?_⟩
  · intro g
    rw [toggleAutoModeG_bk]
    by_cases h : g.ck.isAutoMode = true ∧ g.ck.synthSupported = true
    · rw [if_pos h]
      rcases hc : g.synthCur with _ | o
      · simp
      · cases o <;> simp [bookingUttOnError]
    · rw [if_neg h]
      simp
  · intro g hne
    rw [toggleAutoModeG_bk]
    by_cases h : g.ck.isAutoMode = true ∧ g.ck.synthSupported = true
    · rw [if_pos h]
      rcases hc : g.synthCur with _ | o
      · rfl
      · cases o
        · rfl
        · exact absurd hc hne
    · rw [if_neg h]
  · intro g
    exact ⟨by simp [toggleBookingAutoModeG], by simp [stopBookingVoiceG]⟩
  · intro g hne
    rw [stopBookingSpeakingG_ck]
    by_cases hs : g.bk.synthSupported = true
    · rw [if_pos hs]
      rcases hc : g.synthCur with _ | o
      · rfl
      · cases o
        · exact absurd hc hne
        · rfl
    · rw [if_neg hs]

/-- Claim C3 (witness): the amended isolation facts evaluated at a
concrete page state. -/
theorem c3_isolation_amended_witness :
    (toggleAutoModeG (appInit true true)).bk = (appInit true true).bk ∧
    (toggleBookingAutoModeG (appInit true true)).ck = (appInit true true).ck := by
  exact ⟨c3_isolation_amended.2.1 (appInit true true) (by decide),
    (c3_isolation_amended.2.2.1 (appInit true true)).1⟩

/-- Claim C4 (confirmed): on completion of a speaking job, both loops
clear the speaking flag and hide the indicator, and schedule the
400-millisecond settle timer to start listening exactly when AutoMode
is true at that moment — otherwise nothing is scheduled and the loop
sits idle; a settle timer that fires on a platform with recognition,
with no session already active, does start listening. -/
theorem c4_speaking_completion :
    (∀ s : CheckinState,
      (checkinUttOnEnd s).isSpeaking = false ∧
      (checkinUttOnEnd s).utterance = none ∧
      (checkinUttOnEnd s).indicator = Indicator.idle ∧
      (checkinUttOnEnd s).pendingListen =
        s.pendingListen ++ (if s.isAutoMode then [400] else []) ∧
      (checkinUttOnEnd s).pendingSubmit = s.pendingSubmit) ∧
    (∀ b : BookingState,
      (bookingUttOnEnd b).isSpeaking = false ∧
      (bookingUttOnEnd b).indicatorHidden = true ∧
      (bookingUttOnEnd b).pendingListen =
        b.pendingListen ++ (if b.isAutoMode then [400] else []) ∧
      (bookingUttOnEnd b).pendingSubmit = b.pendingSubmit) ∧
    (∀ (s : CheckinState) (d : Nat) (rest : List Nat),
      s.pendingListen = d :: rest → s.recSupported = true → s.isListening = false →
      (checkinListenTimerFire s).isListening = true ∧
      (checkinListenTimerFire s).pendingListen = rest) := by
  refine ⟨?_, ?_, ?_⟩
  · intro s
    by_cases ha : s.isAutoMode <;>
      simp [checkinUttOnEnd, setCheckinVoiceIndicator, ha]
  · intro b
    by_cases ha : b.isAutoMode <;>
      simp [bookingUttOnEnd, ha]
  · intro s d rest hp hr hl
    by_cases hrec : s.recHandle <;>
      simp [checkinListenTimerFire, hp, startCheckinListening, hr, hl, hrec,
        stopCheckinVoice, stopCheckinVoiceE, recEngineStop, setCheckinVoiceIndicator]

/-- Claim C4 (witness): the completion facts evaluated at a concrete
state with a pending settle timer. -/
theorem c4_speaking_completion_witness :
    (checkinUttOnEnd checkinLive).pendingListen = [400] ∧
    ({ checkinLive with pendingListen := [400] } : CheckinState).pendingListen = 400 :: [] ∧
    (checkinListenTimerFire { checkinLive with pendingListen := [400] }).isListening = true := by
  refine ⟨(c4_speaking_completion.1 checkinLive).2.2.2.1, by decide, ?_⟩
  exact (c4_speaking_completion.2.2 { checkinLive with pendingListen := [400] } 400 []
    (by decide) (by decide) (by decide)).1

/-- Claim C5 (confirmed): when a listening session ends, both loops
clear the listening state and indicator without any alert, leave the
service untouched, and enqueue the auto-submission of the trimmed
final transcript exactly when it is non-empty and AutoMode is true at
that moment. -/
theorem c5_listen_end_submit :
    (∀ s : CheckinState,
      (checkinRecOnEnd s).pendingSubmit =
        s.pendingSubmit ++
          (if jsTrim s.finalTranscript ≠ "" ∧ s.isAutoMode = true then
            [(300, jsTrim s.finalTranscript)] else []) ∧
      (checkinRecOnEnd s).isListening = false ∧
      (checkinRecOnEnd s).recHandle = false ∧
      (checkinRecOnEnd s).indicator = Indicator.idle ∧
      (checkinRecOnEnd s).serviceCalls = s.serviceCalls ∧
      (checkinRecOnEnd s).alerts = s.alerts) ∧
    (∀ b : BookingState,
      (bookingRecOnEnd b).pendingSubmit =
        b.pendingSubmit ++
          (if b.isAutoMode = true ∧ jsTrim b.finalTranscript ≠ "" then
            [(300, jsTrim b.finalTranscript)] else []) ∧
      (bookingRecOnEnd b).isListening = false ∧
      (bookingRecOnEnd b).indicatorHidden = true ∧
      (bookingRecOnEnd b).statusText = "Ready" ∧
      (bookingRecOnEnd b).serviceCalls = b.serviceCalls ∧
      (bookingRecOnEnd b).alerts = b.alerts) := by
  constructor
  · intro s
    by_cases h : jsTrim s.finalTranscript ≠ "" ∧ s.isAutoMode = true <;>
      simp [checkinRecOnEnd, setCheckinVoiceIndicator, h]
  · intro b
    by_cases h : b.isAutoMode = true ∧ jsTrim b.finalTranscript ≠ "" <;>
      simp [bookingRecOnEnd, h]

/-- Claim C6 (confirmed): a transport failure during submission appends
the user bubble and then exactly one apology bubble, records exactly
one service call for the utterance, starts no speaking or listening
job, schedules nothing, and ends with the typing indicator off — the
loop is parked idle with no retry, in both loops. -/
theorem c6_transport_failure :
    (∀ (s : CheckinState) (t : String), jsTrim t ≠ "" → s.sessionId ≠ none →
      (sendCheckinMessage (some t) FetchOutcome.failure s).bubbles =
        s.bubbles ++ [("user", jsTrim t), ("assistant", checkinApology)] ∧
      (sendCheckinMessage (some t) FetchOutcome.failure s).serviceCalls =
        s.serviceCalls ++ [jsTrim t] ∧
      (sendCheckinMessage (some t) FetchOutcome.failure s).isSpeaking = s.isSpeaking ∧
      (sendCheckinMessage (some t) FetchOutcome.failure s).isListening = s.isListening ∧
      (sendCheckinMessage (some t) FetchOutcome.failure s).utterance = s.utterance ∧
      (sendCheckinMessage (some t) FetchOutcome.failure s).recHandle = s.recHandle ∧
      (sendCheckinMessage (some t) FetchOutcome.failure s).pendingListen = s.pendingListen ∧
      (sendCheckinMessage (some t) FetchOutcome.failure s).pendingSubmit = s.pendingSubmit ∧
      (sendCheckinMessage (some t) FetchOutcome.failure s).typing = false) ∧
    (∀ (b : BookingState) (t : String), jsTrim t ≠ "" → b.bookingSessionId ≠ none →
      (sendBookingMessage (some t) BookingOutcome.failure b).bubbles =
        b.bubbles ++ [("user", jsTrim t), ("assistant", bookingApology)] ∧
      (sendBookingMessage (some t) BookingOutcome.failure b).serviceCalls =
        b.serviceCalls ++ [jsTrim t] ∧
      (sendBookingMessage (some t) BookingOutcome.failure b).isSpeaking = b.isSpeaking ∧
      (sendBookingMessage (some t) BookingOutcome.failure b).isListening = false ∧
      (sendBookingMessage (some t) BookingOutcome.failure b).utterance = b.utterance ∧
      (sendBookingMessage (some t) BookingOutcome.failure b).pendingListen = b.pendingListen ∧
      (sendBookingMessage (some t) BookingOutcome.failure b).pendingSubmit = b.pendingSubmit) := by
  constructor
  · intro s t ht hs
    have hguard : ¬ (jsTrim t = "" ∨ s.sessionId = none) := by
      push_neg
      exact ⟨ht, hs⟩
    simp [sendCheckinMessage, hguard]
  · intro b t ht hb
    have hguard : ¬ (jsTrim t = "" ∨ b.bookingSessionId = none) := by
      push_neg
      exact ⟨ht, hb⟩
    by_cases hr : b.recHandle <;>
      simp [sendBookingMessage, hguard, hr, stopBookingVoice, stopBookingVoiceE, recEngineStop]

/-- Claim C6 (witness): the failure path evaluated at concrete states
with a live session and the utterance text "I have a headache". -/
theorem c6_transport_failure_witness :
    (sendCheckinMessage (some "I have a headache") FetchOutcome.failure checkinLive).bubbles =
      checkinLive.bubbles ++
        [("user", jsTrim "I have a headache"), ("assistant", checkinApology)] ∧
    (sendBookingMessage (some "I have a headache") BookingOutcome.failure bookingLive).bubbles =
      bookingLive.bubbles ++
        [("user", jsTrim "I have a headache"), ("assistant", bookingApology)] := by
  exact ⟨(c6_transport_failure.1 checkinLive "I have a headache" (by decide) (by decide)).1,
    (c6_transport_failure.2 bookingLive "I have a headache" (by decide) (by decide)).1⟩

theorem scanStep_fold (segs : List Seg) (a b : String) :
    (List.foldl scanStep (a, b) segs).1 = a ++ finalsConcat segs := by
  induction segs generalizing a b with
  | nil => simp [finalsConcat]
  | cons r rs ih =>
      by_cases hr : r.isFinal <;>
        simp [scanStep, hr, finalsConcat, ih, String.append_assoc]

theorem scanResults_finals (segs : List Seg) : (scanResults segs).1 = finalsConcat segs := by
  have h := scanStep_fold segs "" ""
  simpa [scanResults] using h

/-- Claim C7 (counterexample): in a session where the engine finalizes
"hello " and then delivers a second result event (resultIndex past the
first result) finalizing "world", the buffer after the session is
"world", not the concatenation "hello world" of all final segments in
arrival order — earlier finals are discarded because the handler
rebuilds the buffer from each event alone. -/
theorem c7_transcript_counterexample :
    c7Trace.finalTranscript = "world" ∧
    (checkinRecOnEnd c7Trace).finalTranscript = "world" ∧
    finalsConcat c7AllSegs = "hello world" ∧
    c7Trace.finalTranscript ≠ finalsConcat c7AllSegs := by
  decide

/-- Claim C7 (amended): the buffer is rebuilt on every result event
from that event's scanned segments only, so after a session with at
least one result event it equals the concatenation, in order, of
exactly the final segments of the last result event (never containing
interim text), finals of earlier events being dropped; it is cleared
at the start of each listening session, and a session with no result
events ends with an empty buffer. -/
theorem c7_transcript_amended :
    (∀ segs : List Seg, (scanResults segs).1 = finalsConcat segs) ∧
    (∀ (s : CheckinState) (events : List (List Seg)) (e : List Seg),
      (checkinSession (events ++ [e]) s).finalTranscript = finalsConcat e) ∧
    (∀ s : CheckinState, s.recSupported = true → s.isListening = false →
      (checkinSession [] s).finalTranscript = "") ∧
    (∀ s : CheckinState, (checkinRecOnEnd s).finalTranscript = s.finalTranscript) ∧
    (∀ (b : BookingState) (events : List (List Seg)) (e : List Seg),
      (bookingSession (events ++ [e]) b).finalTranscript = finalsConcat e) ∧
    (∀ b : BookingState, b.recSupported = true → b.isListening = false →
      (bookingSession [] b).finalTranscript = "") := by
  refine ⟨scanResults_finals, ?_, ?_, ?_, ?_, ?_⟩
  · intro s events e
    simp [checkinSession, List.foldl_append, checkinRecOnResult, scanResults_finals]
  · intro s hr hl
    by_cases hrec : s.recHandle <;>
      simp [checkinSession, startCheckinListening, hr, hl, hrec, stopCheckinVoice,
        stopCheckinVoiceE, recEngineStop, setCheckinVoiceIndicator]
  · intro s
    by_cases h : jsTrim s.finalTranscript ≠ "" ∧ s.isAutoMode = true <;>
      simp [checkinRecOnEnd, setCheckinVoiceIndicator, h]
  · intro b events e
    simp [bookingSession, List.foldl_append, bookingRecOnResult, scanResults_finals]
  · intro b hr hl
    by_cases hrec : b.recHandle <;>
      simp [bookingSession, startBookingListening, bookingRecOnStart, hr, hl, hrec,
        stopBookingVoice, stopBookingVoiceE, recEngineStop]

/-- Claim C7 (witness): the amended buffer facts evaluated on the
concrete Claim C7 session. -/
theorem c7_transcript_amended_witness :
    (checkinSession ([[⟨true, "hello "⟩]] ++ [[⟨true, "world"⟩]]) checkinLive).finalTranscript =
      finalsConcat [⟨true, "world"⟩] ∧
    (checkinSession ([] : List (List Seg)) checkinLive).finalTranscript = "" := by
  exact ⟨c7_transcript_amended.2.1 checkinLive [[⟨true, "hello "⟩]] [⟨true, "world"⟩],
    c7_transcript_amended.2.2.1 checkinLive (by decide) (by decide)⟩

/-- Claim C8 (counterexample): with no speech engine, a check-in speak
request is a complete silent no-op — no inline status message, no
alert, no state change at all — and a check-in listen request likewise;
moreover a booking speak request without synthesis still schedules an
automatic listening attempt when AutoMode is on, so automatic attempts
are not suppressed. -/
theorem c8_unsupported_counterexample :
    checkinSpeakThenListen "Hello" c8NoEngine = c8NoEngine ∧
    c8NoEngine.statusText = "" ∧
    c8NoEngine.alerts = [] ∧
    startCheckinListening c8NoEngine = c8NoEngine ∧
    (bookingSpeakThenListen "Hello" c8BookingNoSynth).pendingListen = [400] := by
  decide

/-- Claim C8 (amended): when the needed engine is missing nothing
throws, but the loops differ from the claim — the check-in speak and
listen requests return silently with no status message at all;
startBookingListening reports the unsupported condition in the booking
status line; and bookingSpeakThenListen without synthesis sets the
status to Ready and, when AutoMode is on, still schedules the
automatic listening attempt. -/
theorem c8_unsupported_amended :
    (∀ (t : String) (s : CheckinState), s.synthSupported = false →
      checkinSpeakThenListen t s = s) ∧
    (∀ s : CheckinState, s.recSupported = false → startCheckinListening s = s) ∧
    (∀ b : BookingState, b.recSupported = false →
      startBookingListening b = { b with statusText := "Voice not supported in this browser." }) ∧
    (∀ (t : String) (b : BookingState), b.synthSupported = false →
      (bookingSpeakThenListen t b).statusText = "Ready" ∧
      (bookingSpeakThenListen t b).utterance = b.utterance ∧
      (bookingSpeakThenListen t b).recHandle = b.recHandle ∧
      (bookingSpeakThenListen t b).pendingListen =
        b.pendingListen ++ (if b.isAutoMode then [400] else [])) := by
  refine ⟨?_, ?_, ?_, ?_⟩
  · intro t s h
    simp [checkinSpeakThenListen, h]
  · intro s h
    simp [startCheckinListening, h]
  · intro b h
    simp [startBookingListening, h]
  · intro t b h
    by_cases ha : b.isAutoMode <;>
      simp [bookingSpeakThenListen, stopBookingSpeaking, h, ha]

/-- Claim C8 (witness): the amended unsupported-engine facts evaluated
at the concrete engineless states. -/
theorem c8_unsupported_amended_witness :
    checkinSpeakThenListen "Hi" c8NoEngine = c8NoEngine ∧
    (bookingSpeakThenListen "Hi" c8BookingNoSynth).statusText = "Ready" := by
  exact ⟨c8_unsupported_amended.1 "Hi" c8NoEngine (by decide),
    (c8_unsupported_amended.2.2.2 "Hi" c8BookingNoSynth (by decide)).1⟩

/-- Claim C9 (confirmed): stopping either driver while it is idle
changes nothing and raises no error; and for any state, even when the
underlying engine stop call throws, the stop functions return normally
(the Except computation always yields ok), release the recognizer
handle, clear the listening flag and reset the indicator. -/
theorem c9_stop_idempotent :
    (∀ s : CheckinState, CheckinVoiceIdle s → stopCheckinVoice s = s) ∧
    (∀ s : CheckinState, CheckinSpeakIdle s → stopCheckinSpeaking s = s) ∧
    (∀ b : BookingState, BookingVoiceIdle b → stopBookingVoice b = b) ∧
    (∀ b : BookingState, BookingSpeakIdle b → stopBookingSpeaking b = b) ∧
    (∀ (engineThrows : Bool) (s : CheckinState),
      stopCheckinVoiceE engineThrows s = Except.ok (stopCheckinVoice s)) ∧
    (∀ (engineThrows : Bool) (b : BookingState),
      stopBookingVoiceE engineThrows b = Except.ok (stopBookingVoice b)) ∧
    (∀ s : CheckinState, (stopCheckinVoice s).recHandle = false ∧
      (stopCheckinVoice s).isListening = false ∧
      (stopCheckinVoice s).indicator = Indicator.idle) ∧
    (∀ b : BookingState, (stopBookingVoice b).recHandle = false ∧
      (stopBookingVoice b).isListening = false ∧
      (stopBookingVoice b).indicatorHidden = true) := by
  refine ⟨?_, ?_, ?_, ?_, ?_, ?_, ?_, ?_⟩
  · intro s h
    obtain ⟨h1, h2, h3, h4, h5⟩ := h
    cases s
    simp_all [stopCheckinVoice, stopCheckinVoiceE, recEngineStop, setCheckinVoiceIndicator]
  · intro s h
    obtain ⟨h1, h2⟩ := h
    cases s
    simp_all [stopCheckinSpeaking]
  · intro b h
    obtain ⟨h1, h2, h3, h4⟩ := h
    cases b
    simp_all [stopBookingVoice, stopBookingVoiceE, recEngineStop]
  · intro b h
    obtain ⟨h1, h2⟩ := h
    cases b
    simp_all [stopBookingSpeaking]
  · intro engineThrows s
    by_cases hr : s.recHandle <;> cases engineThrows <;>
      simp [stopCheckinVoiceE, stopCheckinVoice, recEngineStop, hr, setCheckinVoiceIndicator]
  · intro engineThrows b
    by_cases hr : b.recHandle <;> cases engineThrows <;>
      simp [stopBookingVoiceE, stopBookingVoice, recEngineStop, hr]
  · intro s
    by_cases hr : s.recHandle <;>
      simp [stopCheckinVoice, stopCheckinVoiceE, recEngineStop, hr, setCheckinVoiceIndicator]
  · intro b
    by_cases hr : b.recHandle <;>
      simp [stopBookingVoice, stopBookingVoiceE, recEngineStop, hr]

/-- Claim C9 (witness): idempotent stop evaluated at the concrete idle
initial states, and ok-return under an engine-stop throw. -/
theorem c9_stop_idempotent_witness :
    stopCheckinVoice (checkinInit true true) = checkinInit true true ∧
    stopBookingVoice (bookingInit true true) = bookingInit true true ∧
    stopCheckinVoiceE true (checkinInit true true) =
      Except.ok (stopCheckinVoice (checkinInit true true)) := by
  exact ⟨c9_stop_idempotent.1 _ ⟨rfl, rfl, rfl, rfl, rfl⟩,
    c9_stop_idempotent.2.2.1 _ ⟨rfl, rfl, rfl, rfl⟩,
    c9_stop_idempotent.2.2.2.2.1 true (checkinInit true true)⟩

/-- Claim C10 (confirmed): when the effective text trims to empty or no
backend session id is set, sendCheckinMessage / sendBookingMessage
return the state unchanged — no bubble, no service call, no state
change at all. -/
theorem c10_send_guard :
    (∀ (ov : Option String) (outcome : FetchOutcome) (s : CheckinState),
      (jsTrim (match ov with | some t => t | none => s.inputValue) = "" ∨
        s.sessionId = none) →
      sendCheckinMessage ov outcome s = s) ∧
    (∀ (ov : Option String) (outcome : BookingOutcome) (b : BookingState),
      (jsTrim (match ov with | some t => t | none => b.inputValue) = "" ∨
        b.bookingSessionId = none) →
      sendBookingMessage ov outcome b = b) := by
  constructor
  · intro ov outcome s h
    rcases h with h | h <;> simp [sendCheckinMessage, h]
  · intro ov outcome b h
    rcases h with h | h <;> simp [sendBookingMessage, h]

/-- Claim C10 (witness): the guard evaluated concretely on
whitespace-only text and on a state with no session id. -/
theorem c10_send_guard_witness :
    sendCheckinMessage (some "   ") FetchOutcome.failure checkinLive = checkinLive ∧
    sendBookingMessage (some "hello") BookingOutcome.failure (bookingInit true true) =
      bookingInit true true := by
  exact ⟨c10_send_guard.1 (some "   ") FetchOutcome.failure checkinLive (by decide),
    c10_send_guard.2 (some "hello") BookingOutcome.failure (bookingInit true true)
      (Or.inr (by decide))⟩

end MedBridge
